import Mathlib

set_option maxHeartbeats 1000000
set_option autoImplicit false

/-!
Shallow embedding of the PrivateSportShop stock monitor (src/server.js).

JS objects and Maps are modelled as insertion-ordered association lists,
JS Sets of size identifiers as duplicate-free lists of strings, and the
process-wide mutable globals (monitoredProducts, productHistory,
monitoringInterval, tokenExpiredNotified, CONFIG) as one GlobalState
record threaded through the operations.  Network effects (the upstream
fetch, the cart reservation and the Discord delivery) are modelled as
oracles passed to the functions that perform them; a sweep reports the
reservation calls it performed and the stock notifications it sent.
-/

/-- JS Set.add on a duplicate-free list: append if absent. -/
def setAdd (s : List String) (x : String) : List String :=
  if x ∈ s then s else s ++ [x]

/-- JS Set.delete: remove the element. -/
def setDelete : List String → String → List String
  | [], _ => []
  | y :: rest, x => if y = x then setDelete rest x else y :: setDelete rest x

/-- JS new Set(arr) where arr may be null/undefined (both yield the empty set). -/
def jsNewSet : Option (List String) → List String
  | none => []
  | some l => l.foldl setAdd []

/-- JS Map.get / object indexing on an insertion-ordered association list. -/
def mapLookup {κ α : Type} [DecidableEq κ] : List (κ × α) → κ → Option α
  | [], _ => none
  | (k1, v) :: rest, k => if k = k1 then some v else mapLookup rest k

/-- JS Map.has. -/
def mapHas {κ α : Type} [DecidableEq κ] (m : List (κ × α)) (k : κ) : Bool :=
  (mapLookup m k).isSome

/-- JS Map.set / object property write: replace in place, else append. -/
def mapSet {κ α : Type} [DecidableEq κ] : List (κ × α) → κ → α → List (κ × α)
  | [], k, v => [(k, v)]
  | (k1, v1) :: rest, k, v =>
    if k = k1 then (k1, v) :: rest else (k1, v1) :: mapSet rest k v

/-- JS Map.delete. -/
def mapDelete {κ α : Type} [DecidableEq κ] : List (κ × α) → κ → List (κ × α)
  | [], _ => []
  | (k1, v) :: rest, k => if k1 = k then mapDelete rest k else (k1, v) :: mapDelete rest k

/-- Whether the pattern is an initial segment of the character list. -/
def leadsList : List Char → List Char → Bool
  | [], _ => true
  | _ :: _, [] => false
  | a :: as, b :: bs => a == b && leadsList as bs

/-- Whether the pattern occurs as a contiguous sublist. -/
def hasSubList (pat : List Char) : List Char → Bool
  | [] => pat.isEmpty
  | c :: rest => leadsList pat (c :: rest) || hasSubList pat rest

/-- JS String.prototype.includes. -/
def strContains (s pat : String) : Bool :=
  hasSubList pat.toList s.toList

/-- JS String.prototype.toLowerCase, adequate for the ASCII error signals. -/
def jsLower (s : String) : String :=
  String.mk (s.toList.map Char.toLower)

/-- server.js lines 446-452: the auth-failure signal test in the sweep error handler. -/
def isAuthErrorMonitor (msg : String) : Bool :=
  strContains (jsLower msg) "unauthorized" || strContains (jsLower msg) "401" ||
  strContains (jsLower msg) "403" || strContains (jsLower msg) "token" ||
  strContains (jsLower msg) "auth" || strContains (jsLower msg) "expired"

/-- server.js lines 560-565 and 662-667: the endpoint variant of the signal
test, which omits the expired substring. -/
def isAuthErrorEndpoint (msg : String) : Bool :=
  strContains (jsLower msg) "unauthorized" || strContains (jsLower msg) "401" ||
  strContains (jsLower msg) "403" || strContains (jsLower msg) "token" ||
  strContains (jsLower msg) "auth"

/-- Per-size stock record, lines 210-213. -/
structure StockEntry where
  inStock : Bool
  quantity : Nat
deriving Repr, DecidableEq

/-- sizeMapping value, lines 204-207: display name and child product id. -/
structure SizeInfo where
  size : String
  productId : Nat
deriving Repr, DecidableEq

/-- The sizeMapping object in its JS iteration order. -/
abbrev SizeMapping := List (String × SizeInfo)

/-- The stockInfo object in its JS iteration order. -/
abbrev StockInfo := List (String × StockEntry)

/-- Parsed product descriptor, lines 182-193 (fields the state machine reads). -/
structure ProductInfo where
  productId : Nat
  title : String
  brand : String
  price : Option String
  originalPrice : Option String
  discount : Option String
  imageUrl : Option String
  inStock : Bool
deriving Repr, DecidableEq

/-- Result of a successful fetchProductDetails call: the parsed product info
and the size map; stockInfo is derived from the size map by stockFromSizes. -/
structure FetchResult where
  productInfo : ProductInfo
  sizeMapping : SizeMapping
deriving Repr, DecidableEq

/-- Lines 199-216: every size listed in the upstream option group is recorded
as in stock with quantity 1. -/
def stockFromSizes (m : SizeMapping) : StockInfo :=
  m.map (fun p => (p.1, { inStock := true, quantity := 1 }))

/-- stock[sizeId]?.inStock with undefined treated as falsy. -/
def lookupInStock (m : StockInfo) (sizeId : String) : Bool :=
  match mapLookup m sizeId with
  | some e => e.inStock
  | none => false

/-- One monitoredProducts entry, lines 629-638. -/
structure WatchEntry where
  productId : Nat
  productInfo : ProductInfo
  sizeMapping : SizeMapping
  watchedSizes : List String
  watchAll : Bool
  hadSizes : Bool
  previousStock : StockInfo
  notified : List String
deriving Repr, DecidableEq

/-- One productHistory entry, lines 66-79.  Timestamps are abstract ticks. -/
structure HistoryEntry where
  productId : Nat
  title : String
  brand : String
  price : Option String
  originalPrice : Option String
  discount : Option String
  imageUrl : Option String
  sizeMapping : SizeMapping
  addedAt : Nat
  lastMonitored : Nat
deriving Repr, DecidableEq

/-- The process-wide mutable globals of server.js: the two Maps, the interval
handle (abstracted to whether it is set), the token-expired suppression flag
and the mutable CONFIG credential fields. -/
structure GlobalState where
  monitoredProducts : List (String × WatchEntry)
  productHistory : List (Nat × HistoryEntry)
  monitoringInterval : Bool
  tokenExpiredNotified : Bool
  discordWebhook : String
  basicAuth : String
  cookies : String
deriving Repr, DecidableEq

/-- Server start: both maps empty, no interval, flag clear, CONFIG from env. -/
def initialState (webhook auth cook : String) : GlobalState :=
  { monitoredProducts := []
    productHistory := []
    monitoringInterval := false
    tokenExpiredNotified := false
    discordWebhook := webhook
    basicAuth := auth
    cookies := cook }

/-- addToHistory, lines 66-79: overwrite the history entry for the product,
stamping both timestamps with the current time. -/
def addToHistory (now : Nat) (h : List (Nat × HistoryEntry)) (pid : Nat)
    (pi : ProductInfo) (sm : SizeMapping) : List (Nat × HistoryEntry) :=
  mapSet h pid
    { productId := pid
      title := if pi.title = "" then "Produit " ++ toString pid else pi.title
      brand := pi.brand
      price := pi.price
      originalPrice := pi.originalPrice
      discount := pi.discount
      imageUrl := pi.imageUrl
      sizeMapping := sm
      addedAt := now
      lastMonitored := now }

/-- Output of one loop over watched sizes: the updated notified set, the
reservation calls performed and the notifications sent, in order. -/
structure SizeLoopOut where
  notified : List String
  resCalls : List String
  notifs : List String
deriving Repr, DecidableEq

/-- State of the watchAll restock loop, lines 379-390. -/
structure LoopState where
  addedToCart : Bool
  notified : List String
  resCalls : List String
  notifs : List String
deriving Repr, DecidableEq

/-- Lines 380-390: iterate the size map entries; while nothing has been added
to the cart yet, attempt the reservation; on success notify, record the size
as notified and stop attempting. -/
def watchAllGo (r : String → Bool) : SizeMapping → LoopState → LoopState
  | [], st => st
  | (sizeId, _) :: rest, st =>
    if st.addedToCart then watchAllGo r rest st
    else if r sizeId then
      watchAllGo r rest
        { addedToCart := true
          notified := setAdd st.notified sizeId
          resCalls := st.resCalls ++ [sizeId]
          notifs := st.notifs ++ [sizeId] }
    else
      watchAllGo r rest { st with resCalls := st.resCalls ++ [sizeId] }

/-- Lines 371-402: the watchAll block of the sweep.  Returns the new hadSizes
flag together with the loop output. -/
def processWatchAllBlock (r : String → Bool) (hasSizes : Bool) (sm : SizeMapping)
    (hadSizes : Bool) (notified : List String) : Bool × SizeLoopOut :=
  if !hadSizes && hasSizes then
    let ls := watchAllGo r sm
      { addedToCart := false, notified := notified, resCalls := [], notifs := [] }
    (true, { notified := ls.notified, resCalls := ls.resCalls, notifs := ls.notifs })
  else if hadSizes && !hasSizes then
    (false, { notified := [], resCalls := [], notifs := [] })
  else
    (hadSizes, { notified := notified, resCalls := [], notifs := [] })

/-- Lines 405-436: the body of the per-watched-size loop for one size.
Returns the updated notified set, the reservation calls made and the
notifications sent for this size.  On the stock-appeared edge
(nowInStock, not wasInStock, not yet notified) the reservation is attempted;
only on success is the notification sent and the size recorded; afterwards
the re-arm rule removes the size from the notified set if it is now out of
stock. -/
def stepSize (r : String → Bool) (stock prev : StockInfo) (sizeId : String)
    (n : List String) : List String × List String × List String :=
  let wasIn := lookupInStock prev sizeId
  let nowIn := lookupInStock stock sizeId
  let fire := nowIn && !wasIn && decide (sizeId ∉ n)
  let n1 := if fire && r sizeId then setAdd n sizeId else n
  let calls1 : List String := if fire then [sizeId] else []
  let nots1 : List String := if fire && r sizeId then [sizeId] else []
  let n2 := if decide (sizeId ∈ n1) && !nowIn then setDelete n1 sizeId else n1
  (n2, calls1, nots1)

/-- Lines 404-437: the per-watched-size loop, applying stepSize to each
watched size in order. -/
def watchLoop (r : String → Bool) (stock prev : StockInfo) :
    List String → List String → SizeLoopOut
  | [], n => { notified := n, resCalls := [], notifs := [] }
  | sizeId :: rest, n =>
    let stp := stepSize r stock prev sizeId n
    let out := watchLoop r stock prev rest stp.1
    { notified := out.notified
      resCalls := stp.2.1 ++ out.resCalls
      notifs := stp.2.2 ++ out.notifs }

/-- Result of processing one registry entry during a sweep. -/
structure StepResult where
  entry : WatchEntry
  resCalls : List String
  notifs : List String
deriving Repr, DecidableEq

/-- Lines 363-441: the per-product body of monitorAllProducts on a successful
fetch.  The reservation oracle r tells which cart-add calls would succeed. -/
def processProduct (r : String → Bool) (fr : FetchResult) (p : WatchEntry) :
    StepResult :=
  let stock := stockFromSizes fr.sizeMapping
  let hasSizes := !fr.sizeMapping.isEmpty
  let hadAll :=
    if p.watchAll then processWatchAllBlock r hasSizes fr.sizeMapping p.hadSizes p.notified
    else (p.hadSizes, { notified := p.notified, resCalls := [], notifs := [] })
  let out := watchLoop r stock p.previousStock p.watchedSizes hadAll.2.notified
  { entry :=
      { p with
        hadSizes := hadAll.1
        notified := out.notified
        previousStock := stock
        productInfo := fr.productInfo
        sizeMapping := fr.sizeMapping }
    resCalls := hadAll.2.resCalls ++ out.resCalls
    notifs := hadAll.2.notifs ++ out.notifs }

/-- Lines 312-314 abstracted to the flag transition: returns the new flag and
whether the alert was actually delivered. -/
def tokenNotifyStep (flag : Bool) (webhook : String) : Bool × Bool :=
  if flag || webhook = "" then (flag, false) else (true, true)

/-- Lines 443-455: the per-product catch handler of the sweep, on the
suppression flag. -/
def handleMonitorErrorFlag (msg : String) (flag : Bool) (webhook : String) :
    Bool × Bool :=
  if isAuthErrorMonitor msg then tokenNotifyStep flag webhook else (flag, false)

/-- sendTokenExpiredNotification, lines 311-350, on the global state. -/
def sendTokenExpired (st : GlobalState) : GlobalState × Bool :=
  let fs := tokenNotifyStep st.tokenExpiredNotified st.discordWebhook
  ({ st with tokenExpiredNotified := fs.1 }, fs.2)

/-- resetTokenExpiredFlag, lines 352-354. -/
def resetTokenExpiredFlag (st : GlobalState) : GlobalState :=
  { st with tokenExpiredNotified := false }

/-- Accumulated result of the registry iteration of one sweep. -/
structure SweepOut where
  registry : List (String × WatchEntry)
  flag : Bool
  resCalls : List (Nat × String)
  notifs : List (Nat × String)
deriving Repr, DecidableEq

/-- Lines 363-456: iterate the registry entries in order; a fetch failure is
caught per entry and fed to the auth-signal handler. -/
def sweepGo (rv : Nat → String → Bool) (f : Nat → Except String FetchResult)
    (webhook : String) : List (String × WatchEntry) → Bool → SweepOut
  | [], flag => { registry := [], flag := flag, resCalls := [], notifs := [] }
  | (key, p) :: rest, flag =>
    match f p.productId with
    | .ok fr =>
      let stp := processProduct (rv p.productId) fr p
      let out := sweepGo rv f webhook rest flag
      { registry := (key, stp.entry) :: out.registry
        flag := out.flag
        resCalls := stp.resCalls.map (fun s => (p.productId, s)) ++ out.resCalls
        notifs := stp.notifs.map (fun s => (p.productId, s)) ++ out.notifs }
    | .error msg =>
      let flag1 := (handleMonitorErrorFlag msg flag webhook).1
      let out := sweepGo rv f webhook rest flag1
      { registry := (key, p) :: out.registry
        flag := out.flag
        resCalls := out.resCalls
        notifs := out.notifs }

/-- Result of one whole sweep. -/
structure SweepResult where
  state : GlobalState
  resCalls : List (Nat × String)
  notifs : List (Nat × String)
deriving Repr, DecidableEq

/-- monitorAllProducts, lines 358-457. -/
def monitorAll (rv : Nat → String → Bool) (f : Nat → Except String FetchResult)
    (st : GlobalState) : SweepResult :=
  if st.monitoredProducts.isEmpty then { state := st, resCalls := [], notifs := [] }
  else
    let out := sweepGo rv f st.discordWebhook st.monitoredProducts st.tokenExpiredNotified
    { state := { st with monitoredProducts := out.registry, tokenExpiredNotified := out.flag }
      resCalls := out.resCalls
      notifs := out.notifs }

/-- parseHeadersFromEnv result, lines 11-34. -/
structure ParsedHeaders where
  basicAuth : String
  cookies : String
deriving Repr, DecidableEq

/-- parseHeadersFromEnv, lines 11-34: scan the header block line by line for
Authorization Basic and Cookie values. -/
def parseHeadersFromEnv (headersStr : String) : ParsedHeaders :=
  if headersStr = "" then { basicAuth := "", cookies := "" }
  else
    (headersStr.splitOn "\n").foldl
      (fun acc line =>
        let trimmed := line.trim
        let acc :=
          if (jsLower trimmed).startsWith "authorization:" then
            let value := (trimmed.drop "authorization:".length).trim
            if (jsLower value).startsWith "basic " then
              { acc with basicAuth := (value.drop "basic ".length).trim }
            else acc
          else acc
        if (jsLower trimmed).startsWith "cookie:" then
          { acc with cookies := (trimmed.drop "cookie:".length).trim }
        else acc)
      { basicAuth := "", cookies := "" }

/-- Body of POST /api/products/add, line 576. -/
structure AddRequest where
  productId : Option Nat
  watchedSizes : Option (List String)
  watchAll : Bool
deriving Repr, DecidableEq

/-- Response of POST /api/products/add. -/
inductive AddResp where
  | badRequest
  | serverError (msg : String)
  | ok
deriving Repr, DecidableEq

/-- Lines 600-607: at add time in watchAll mode, try the sizes in map order
and stop at the first successful cart add; that size is the one notified. -/
def addWatchAllScan (r : String → Bool) : SizeMapping → Option String
  | [] => none
  | (sizeId, _) :: rest => if r sizeId then some sizeId else addWatchAllScan r rest

/-- Lines 611-627: at add time, for every watched size already in stock try a
cart add and record the size as notified on success (no early stop). -/
def addWatchedScan (r : String → Bool) (stock : StockInfo) :
    List String → List String → List String
  | [], n => n
  | sizeId :: rest, n =>
    let n1 :=
      match mapLookup stock sizeId with
      | some e =>
        if e.inStock then (if r sizeId then setAdd n sizeId else n) else n
      | none => n
    addWatchedScan r stock rest n1

/-- POST /api/products/add, lines 574-673. -/
def apiAdd (rv : Nat → String → Bool) (f : Nat → Except String FetchResult)
    (now : Nat) (st : GlobalState) (req : AddRequest) : GlobalState × AddResp :=
  match req.productId with
  | none => (st, .badRequest)
  | some pid =>
    if pid = 0 then (st, .badRequest)
    else if !req.watchAll &&
        (match req.watchedSizes with | none => true | some l => l.isEmpty) then
      (st, .badRequest)
    else
      match f pid with
      | .error msg =>
        let st1 := if isAuthErrorEndpoint msg then (sendTokenExpired st).1 else st
        (st1, .serverError msg)
      | .ok fr =>
        let stock := stockFromSizes fr.sizeMapping
        let hasSizes := !fr.sizeMapping.isEmpty
        let notified1 :=
          if req.watchAll && hasSizes then
            match addWatchAllScan (rv pid) fr.sizeMapping with
            | some s => setAdd [] s
            | none => []
          else []
        let notified2 :=
          match req.watchedSizes with
          | some ws => addWatchedScan (rv pid) stock ws notified1
          | none => notified1
        let entry : WatchEntry :=
          { productId := pid
            productInfo := fr.productInfo
            sizeMapping := fr.sizeMapping
            watchedSizes := jsNewSet req.watchedSizes
            watchAll := req.watchAll
            hadSizes := hasSizes
            previousStock := stock
            notified := notified2 }
        ({ st with
            monitoredProducts := mapSet st.monitoredProducts (toString pid) entry
            productHistory := addToHistory now st.productHistory pid fr.productInfo fr.sizeMapping
            monitoringInterval := true },
          .ok)

/-- DELETE /api/products/:key, lines 676-690; startMonitoring and
stopMonitoring are lines 459-472.  Returns whether the key was found. -/
def apiRemove (st : GlobalState) (key : String) : GlobalState × Bool :=
  if mapHas st.monitoredProducts key then
    let reg := mapDelete st.monitoredProducts key
    ({ st with
        monitoredProducts := reg
        monitoringInterval := if reg.isEmpty then false else st.monitoringInterval },
      true)
  else (st, false)

/-- PUT /api/products/:key/sizes, lines 693-705.  Returns whether the key was
found (404 versus success). -/
def apiUpdateSizes (st : GlobalState) (key : String)
    (watchedSizes : Option (List String)) : GlobalState × Bool :=
  match mapLookup st.monitoredProducts key with
  | none => (st, false)
  | some p =>
    ({ st with
        monitoredProducts :=
          mapSet st.monitoredProducts key { p with watchedSizes := jsNewSet watchedSizes } },
      true)

/-- POST /api/products/:key/reset, lines 708-719. -/
def apiResetNotifications (st : GlobalState) (key : String) : GlobalState × Bool :=
  match mapLookup st.monitoredProducts key with
  | none => (st, false)
  | some p =>
    ({ st with
        monitoredProducts := mapSet st.monitoredProducts key { p with notified := [] } },
      true)

/-- DELETE /api/history, lines 744-747. -/
def apiClearHistory (st : GlobalState) : GlobalState × Bool :=
  ({ st with productHistory := [] }, true)

/-- DELETE /api/history/:key, lines 749-757. -/
def apiDeleteHistory (st : GlobalState) (k : Nat) : GlobalState × Bool :=
  if mapHas st.productHistory k then
    ({ st with productHistory := mapDelete st.productHistory k }, true)
  else (st, false)

/-- POST /api/config/auth, lines 761-790: optionally update the credentials,
then always clear the token-expired suppression flag. -/
def apiConfigAuth (st : GlobalState) (headers auth cook : Option String) :
    GlobalState × Bool :=
  let st1 :=
    match headers with
    | some h =>
      if h = "" then st
      else
        let parsed := parseHeadersFromEnv h
        let a := if parsed.basicAuth ≠ "" then { st with basicAuth := parsed.basicAuth } else st
        if parsed.cookies ≠ "" then { a with cookies := parsed.cookies } else a
    | none => st
  let st2 :=
    match auth with
    | some b => if b ≠ "" then { st1 with basicAuth := b } else st1
    | none => st1
  let st3 :=
    match cook with
    | some c => if c ≠ "" then { st2 with cookies := c } else st2
    | none => st2
  (resetTokenExpiredFlag st3, true)

/-- POST /api/config/discord, lines 792-803. -/
def apiConfigDiscord (st : GlobalState) (webhook : String) : GlobalState × Bool :=
  if webhook = "" then (st, false)
  else ({ st with discordWebhook := webhook }, true)

/-- POST /api/products/fetch, lines 525-571: stateless except that an
auth-signalled fetch failure may fire the token-expired alert. -/
def apiFetchPreview (f : Nat → Except String FetchResult) (st : GlobalState)
    (pid : Nat) : GlobalState × Bool :=
  match f pid with
  | .ok _ => (st, true)
  | .error msg =>
    (if isAuthErrorEndpoint msg then (sendTokenExpired st).1 else st, false)

/-- The control surface of the server: every state-touching request plus the
timer sweep. -/
inductive Op where
  | add (rv : Nat → String → Bool) (f : Nat → Except String FetchResult)
      (now : Nat) (req : AddRequest)
  | remove (key : String)
  | updateSizes (key : String) (ws : Option (List String))
  | resetNotifs (key : String)
  | sweep (rv : Nat → String → Bool) (f : Nat → Except String FetchResult)
  | configAuth (headers auth cook : Option String)
  | configDiscord (webhook : String)
  | clearHistory
  | deleteHistory (k : Nat)
  | fetchPreview (f : Nat → Except String FetchResult) (pid : Nat)

/-- State effect of each operation. -/
def applyOp (st : GlobalState) : Op → GlobalState
  | .add rv f now req => (apiAdd rv f now st req).1
  | .remove key => (apiRemove st key).1
  | .updateSizes key ws => (apiUpdateSizes st key ws).1
  | .resetNotifs key => (apiResetNotifications st key).1
  | .sweep rv f => (monitorAll rv f st).state
  | .configAuth h b c => (apiConfigAuth st h b c).1
  | .configDiscord w => (apiConfigDiscord st w).1
  | .clearHistory => (apiClearHistory st).1
  | .deleteHistory k => (apiDeleteHistory st k).1
  | .fetchPreview f pid => (apiFetchPreview f st pid).1

/-- The explicit history-delete operations (DELETE /api/history and
DELETE /api/history/:key). -/
def isHistoryClear : Op → Bool
  | .clearHistory => true
  | .deleteHistory _ => true
  | _ => false

/-- The credential-lifecycle events claim C7 ranges over: an auth-signalled or
other per-product failure inside a sweep, and a credential update. -/
inductive CredEvent where
  | failure (msg : String)
  | credUpdate (headers auth cook : Option String)

/-- One event step; the Bool reports whether the token-expired alert fired. -/
def credStep (st : GlobalState) : CredEvent → GlobalState × Bool
  | .failure msg =>
    let fs := handleMonitorErrorFlag msg st.tokenExpiredNotified st.discordWebhook
    ({ st with tokenExpiredNotified := fs.1 }, fs.2)
  | .credUpdate h b c => ((apiConfigAuth st h b c).1, false)

/-- Run a sequence of credential-lifecycle events, counting fired alerts. -/
def credRun (st : GlobalState) : List CredEvent → GlobalState × Nat
  | [] => (st, 0)
  | e :: rest =>
    let p := credStep st e
    let q := credRun p.1 rest
    (q.1, (if p.2 then 1 else 0) + q.2)

/-- The registry-scheduler coupling invariant of claim C5. -/
def SchedulerInv (st : GlobalState) : Prop :=
  st.monitoredProducts = [] ↔ st.monitoringInterval = false


/-- First size accepted by the reservation oracle, in list order (used to
state the corrected watchAll restock policy). -/
def firstSuccess (r : String → Bool) : List String → Option String
  | [] => none
  | s :: rest => if r s then some s else firstSuccess r rest

/-- The sizes the restock loop attempts to reserve: every size in order up to
and including the first accepted one. -/
def attemptsUntilSuccess (r : String → Bool) : List String → List String
  | [] => []
  | s :: rest => if r s then [s] else s :: attemptsUntilSuccess r rest

/-! Concrete fixtures used by witnesses and counterexamples. -/

def sampleInfo : ProductInfo :=
  { productId := 1, title := "T", brand := "B", price := none,
    originalPrice := none, discount := none, imageUrl := none, inStock := true }

def cexEntryC1 : WatchEntry :=
  { productId := 1, productInfo := sampleInfo, sizeMapping := [],
    watchedSizes := ["A"], watchAll := false, hadSizes := false,
    previousStock := [], notified := [] }

def cexFetchC1 : FetchResult :=
  { productInfo := sampleInfo, sizeMapping := [("A", { size := "M", productId := 11 })] }

def cexEntryC2 : WatchEntry :=
  { productId := 2, productInfo := sampleInfo, sizeMapping := [],
    watchedSizes := [], watchAll := true, hadSizes := false,
    previousStock := [], notified := [] }

def cexFetchC2 : FetchResult :=
  { productInfo := sampleInfo,
    sizeMapping := [("A", { size := "M", productId := 11 }), ("B", { size := "L", productId := 12 })] }


def defaultEntry : WatchEntry :=
  { productId := 0, productInfo := sampleInfo, sizeMapping := [],
    watchedSizes := [], watchAll := false, hadSizes := false,
    previousStock := [], notified := [] }

/-- Fetch oracle: product exists but currently has no listed sizes. -/
def fetchNoSizes : Nat → Except String FetchResult :=
  fun _ => .ok { productInfo := sampleInfo, sizeMapping := [] }

/-- Fetch oracle: sizes A and B are listed. -/
def fetchSizesAB : Nat → Except String FetchResult :=
  fun _ => .ok cexFetchC2

/-- Fetch oracle: only size B is listed (A has been delisted). -/
def fetchSizeB : Nat → Except String FetchResult :=
  fun _ => .ok { productInfo := sampleInfo, sizeMapping := [("B", { size := "L", productId := 12 })] }

/-- Reservation oracle that accepts exactly size A. -/
def reserveOnlyA : Nat → String → Bool := fun _ s => s == "A"

/-- C4 scenario: watch-any product added while out of stock. -/
def addReqWatchAll : AddRequest :=
  { productId := some 7, watchedSizes := none, watchAll := true }

/-- State after adding product 7 in watchAll mode while it is out of stock. -/
def stC4add : GlobalState :=
  (apiAdd (fun _ _ => false) fetchNoSizes 0 (initialState "wh" "" "") addReqWatchAll).1

/-- State after the first sweep: sizes A and B appear, A is reserved and
notified. -/
def stC4restock : GlobalState :=
  (monitorAll reserveOnlyA fetchSizesAB stC4add).state

/-- State after the second sweep: size A has been delisted but B remains. -/
def stC4delist : GlobalState :=
  (monitorAll reserveOnlyA fetchSizeB stC4restock).state

/-- Registry entry of product 7 after the second sweep. -/
def c4FinalEntry : WatchEntry :=
  (mapLookup stC4delist.monitoredProducts "7").getD defaultEntry

/-- C8 scenario: product 7 added at tick 0 with watched size A, out of stock. -/
def stC8add : GlobalState :=
  (apiAdd (fun _ _ => false) fetchNoSizes 0 (initialState "wh" "" "")
    { productId := some 7, watchedSizes := some ["A"], watchAll := false }).1

/-- C5 witness fixture: one product monitored. -/
def stC5one : GlobalState :=
  (apiAdd (fun _ _ => false) fetchNoSizes 0 (initialState "" "" "")
    { productId := some 3, watchedSizes := some ["A"], watchAll := false }).1

/-- C7 witness fixture: webhook configured, alert already fired. -/
def stC7flagged : GlobalState :=
  { initialState "wh" "" "" with tokenExpiredNotified := true }

/-! Basic lemmas about the JS collection helpers. -/

theorem mem_setAdd {s : List String} {x y : String} :
    y ∈ setAdd s x ↔ y ∈ s ∨ y = x := by
  unfold setAdd
  by_cases h : x ∈ s
  · rw [if_pos h]
    constructor
    · exact Or.inl
    · rintro (h1 | rfl)
      · exact h1
      · exact h
  · rw [if_neg h]
    simp

theorem mem_setDelete {s : List String} {x y : String} :
    y ∈ setDelete s x ↔ y ∈ s ∧ y ≠ x := by
  induction s with
  | nil => simp [setDelete]
  | cons a rest ih =>
    simp only [setDelete]
    by_cases h : a = x
    · rw [if_pos h]
      subst h
      rw [ih]
      simp only [List.mem_cons]
      tauto
    · rw [if_neg h]
      simp only [List.mem_cons, ih]
      constructor
      · rintro (rfl | ⟨h1, h2⟩)
        · exact ⟨Or.inl rfl, h⟩
        · exact ⟨Or.inr h1, h2⟩
      · rintro ⟨(rfl | h1), h2⟩
        · exact Or.inl rfl
        · exact Or.inr ⟨h1, h2⟩

theorem mapLookup_mapSet_self {κ α : Type} [DecidableEq κ]
    (m : List (κ × α)) (k : κ) (v : α) :
    mapLookup (mapSet m k v) k = some v := by
  induction m with
  | nil => simp [mapSet, mapLookup]
  | cons p rest ih =>
    obtain ⟨k1, v1⟩ := p
    by_cases h : k = k1
    · simp [mapSet, mapLookup, h]
    · simp [mapSet, mapLookup, h, ih]

theorem mapLookup_mapSet_ne {κ α : Type} [DecidableEq κ]
    (m : List (κ × α)) (k k2 : κ) (v : α) (h : k2 ≠ k) :
    mapLookup (mapSet m k v) k2 = mapLookup m k2 := by
  induction m with
  | nil => simp [mapSet, mapLookup, h]
  | cons p rest ih =>
    obtain ⟨k1, v1⟩ := p
    by_cases h1 : k = k1
    · subst h1
      simp [mapSet, mapLookup, h]
    · by_cases h2 : k2 = k1
      · simp [mapSet, mapLookup, h1, h2]
      · simp [mapSet, mapLookup, h1, h2, ih]

theorem mapSet_ne_nil {κ α : Type} [DecidableEq κ]
    (m : List (κ × α)) (k : κ) (v : α) : mapSet m k v ≠ [] := by
  cases m with
  | nil => simp [mapSet]
  | cons p rest =>
    obtain ⟨k1, v1⟩ := p
    by_cases h : k = k1 <;> simp [mapSet, h]

theorem mapHas_ne_nil {κ α : Type} [DecidableEq κ]
    {m : List (κ × α)} {k : κ} (h : mapHas m k = true) : m ≠ [] := by
  intro hm
  subst hm
  simp [mapHas, mapLookup] at h

theorem mapHas_mapSet_of {κ α : Type} [DecidableEq κ]
    {m : List (κ × α)} {k2 : κ} (k : κ) (v : α) (h : mapHas m k2 = true) :
    mapHas (mapSet m k v) k2 = true := by
  by_cases e : k2 = k
  · subst e
    simp [mapHas, mapLookup_mapSet_self]
  · rw [mapHas, mapLookup_mapSet_ne m k k2 v e]
    exact h

/-! Lemmas about one iteration of the per-watched-size loop. -/

theorem stepSize_stable_calls (r : String → Bool) (stock : StockInfo)
    (s : String) (n : List String) : (stepSize r stock stock s n).2.1 = [] := by
  unfold stepSize
  cases h : lookupInStock stock s <;> simp [h]

theorem stepSize_stable_notifs (r : String → Bool) (stock : StockInfo)
    (s : String) (n : List String) : (stepSize r stock stock s n).2.2 = [] := by
  unfold stepSize
  cases h : lookupInStock stock s <;> simp [h]

theorem stepSize_mem_other (r : String → Bool) (stock prev : StockInfo)
    {t s : String} (h : s ≠ t) (n : List String) :
    s ∈ (stepSize r stock prev t n).1 ↔ s ∈ n := by
  simp only [stepSize]
  split_ifs <;> simp [mem_setAdd, mem_setDelete, h]

theorem stepSize_self_fail (r : String → Bool) (stock prev : StockInfo)
    {s : String} (hr : r s = false) {n : List String} (hn : s ∉ n) :
    s ∉ (stepSize r stock prev s n).1 ∧ (stepSize r stock prev s n).2.2 = [] := by
  simp only [stepSize]
  simp [hr, hn]

theorem stepSize_mem_self_inStock (r : String → Bool) (stock prev : StockInfo)
    (s : String) (n : List String) :
    s ∈ (stepSize r stock prev s n).1 → lookupInStock stock s = true := by
  intro hmem
  by_cases hnow : lookupInStock stock s = true
  · exact hnow
  · exfalso
    rw [Bool.not_eq_true] at hnow
    simp only [stepSize, hnow] at hmem
    by_cases hn : s ∈ n <;> simp [hn, mem_setDelete] at hmem

theorem stepSize_self_wasIn (r : String → Bool) (stock prev : StockInfo)
    {s : String} (hprev : lookupInStock prev s = true) (n : List String) :
    (stepSize r stock prev s n).2.1 = [] := by
  simp only [stepSize]
  simp [hprev]

theorem stepSize_other_calls (r : String → Bool) (stock prev : StockInfo)
    {t s : String} (h : s ≠ t) (n : List String) :
    s ∉ (stepSize r stock prev t n).2.1 ∧ s ∉ (stepSize r stock prev t n).2.2 := by
  simp only [stepSize]
  split_ifs <;> simp [h]

/-! Lemmas about the per-watched-size loop. -/

theorem watchLoop_stable_calls (r : String → Bool) (stock : StockInfo) :
    ∀ (sizes n : List String), (watchLoop r stock stock sizes n).resCalls = [] := by
  intro sizes
  induction sizes with
  | nil => intro n; rfl
  | cons t rest ih =>
    intro n
    simp only [watchLoop]
    rw [stepSize_stable_calls, ih]
    rfl

theorem watchLoop_stable_notifs (r : String → Bool) (stock : StockInfo) :
    ∀ (sizes n : List String), (watchLoop r stock stock sizes n).notifs = [] := by
  intro sizes
  induction sizes with
  | nil => intro n; rfl
  | cons t rest ih =>
    intro n
    simp only [watchLoop]
    rw [stepSize_stable_notifs, ih]
    rfl

theorem watchLoop_mem_notin (r : String → Bool) (stock prev : StockInfo)
    (s : String) : ∀ (sizes n : List String), s ∉ sizes →
    ((s ∈ (watchLoop r stock prev sizes n).notified) ↔ s ∈ n) := by
  intro sizes
  induction sizes with
  | nil => intro n _; rfl
  | cons t rest ih =>
    intro n hs
    have hne : s ≠ t := fun e => hs (e ▸ List.mem_cons_self t rest)
    have hrest : s ∉ rest := fun e => hs (List.mem_cons_of_mem t e)
    simp only [watchLoop]
    rw [ih _ hrest, stepSize_mem_other r stock prev hne]

theorem watchLoop_mem_inStock (r : String → Bool) (stock prev : StockInfo)
    (s : String) : ∀ (sizes n : List String), s ∈ sizes →
    s ∈ (watchLoop r stock prev sizes n).notified → lookupInStock stock s = true := by
  intro sizes
  induction sizes with
  | nil => intro n hs; exact absurd hs (List.not_mem_nil s)
  | cons t rest ih =>
    intro n hs hmem
    simp only [watchLoop] at hmem
    by_cases hr : s ∈ rest
    · exact ih _ hr hmem
    · have ht : s = t := by
        rcases List.mem_cons.mp hs with h | h
        · exact h
        · exact absurd h hr
      subst ht
      have hstep : s ∈ (stepSize r stock prev s n).1 :=
        (watchLoop_mem_notin r stock prev s rest _ hr).mp hmem
      exact stepSize_mem_self_inStock r stock prev s n hstep

theorem watchLoop_not_added (r : String → Bool) (stock prev : StockInfo)
    {s : String} (hr : r s = false) : ∀ (sizes n : List String), s ∉ n →
    s ∉ (watchLoop r stock prev sizes n).notified ∧
      s ∉ (watchLoop r stock prev sizes n).notifs := by
  intro sizes
  induction sizes with
  | nil =>
    intro n hn
    exact ⟨hn, List.not_mem_nil s⟩
  | cons t rest ih =>
    intro n hn
    simp only [watchLoop]
    by_cases e : s = t
    · subst e
      obtain ⟨h1, h2⟩ := stepSize_self_fail r stock prev hr hn
      obtain ⟨h3, h4⟩ := ih _ h1
      refine ⟨h3, ?_⟩
      rw [h2]
      simpa using h4
    · have h1 : s ∉ (stepSize r stock prev t n).1 :=
        fun hm => hn ((stepSize_mem_other r stock prev e n).mp hm)
      obtain ⟨h3, h4⟩ := ih _ h1
      obtain ⟨_, h5⟩ := stepSize_other_calls r stock prev e n
      refine ⟨h3, ?_⟩
      simp only [List.mem_append]
      rintro (hc | hc)
      · exact h5 hc
      · exact h4 hc

theorem watchLoop_no_attempt (r : String → Bool) (stock prev : StockInfo)
    {s : String} (hprev : lookupInStock prev s = true) :
    ∀ (sizes n : List String), s ∉ (watchLoop r stock prev sizes n).resCalls := by
  intro sizes
  induction sizes with
  | nil => intro n; exact List.not_mem_nil s
  | cons t rest ih =>
    intro n
    simp only [watchLoop, List.mem_append]
    rintro (hc | hc)
    · by_cases e : s = t
      · subst e
        rw [stepSize_self_wasIn r stock prev hprev n] at hc
        exact List.not_mem_nil s hc
      · exact (stepSize_other_calls r stock prev e n).1 hc
    · exact ih _ hc

/-! Lemmas about the watchAll restock block. -/

theorem watchAllGo_done (r : String → Bool) :
    ∀ (sm : SizeMapping) (st : LoopState), st.addedToCart = true →
    watchAllGo r sm st = st := by
  intro sm
  induction sm with
  | nil => intro st _; rfl
  | cons p rest ih =>
    obtain ⟨sizeId, si⟩ := p
    intro st h
    simp only [watchAllGo, h, if_true]
    exact ih st h

theorem watchAllGo_spec (r : String → Bool) :
    ∀ (sm : SizeMapping) (n cs ns : List String),
    watchAllGo r sm { addedToCart := false, notified := n, resCalls := cs, notifs := ns } =
      (match firstSuccess r (sm.map Prod.fst) with
       | some s =>
         { addedToCart := true, notified := setAdd n s,
           resCalls := cs ++ attemptsUntilSuccess r (sm.map Prod.fst), notifs := ns ++ [s] }
       | none =>
         { addedToCart := false, notified := n,
           resCalls := cs ++ attemptsUntilSuccess r (sm.map Prod.fst), notifs := ns }) := by
  intro sm
  induction sm with
  | nil =>
    intro n cs ns
    simp [watchAllGo, firstSuccess, attemptsUntilSuccess]
  | cons p rest ih =>
    obtain ⟨sizeId, si⟩ := p
    intro n cs ns
    by_cases h : r sizeId
    · simp only [watchAllGo, h, if_true, if_false, Bool.false_eq_true]
      rw [watchAllGo_done r rest _ rfl]
      simp [firstSuccess, attemptsUntilSuccess, h]
    · simp only [watchAllGo, h, if_false, Bool.false_eq_true]
      rw [ih]
      simp only [List.map_cons, firstSuccess, attemptsUntilSuccess, h, if_false,
        Bool.false_eq_true]
      cases firstSuccess r (rest.map Prod.fst) <;> simp

theorem processWatchAllBlock_fst (r : String → Bool) (hs had : Bool)
    (sm : SizeMapping) (n : List String) :
    (processWatchAllBlock r hs sm had n).1 = hs := by
  cases hs <;> cases had <;> simp [processWatchAllBlock]

theorem processWatchAllBlock_same (r : String → Bool) (hs : Bool)
    (sm : SizeMapping) (n : List String) :
    processWatchAllBlock r hs sm hs n =
      (hs, { notified := n, resCalls := [], notifs := [] }) := by
  cases hs <;> simp [processWatchAllBlock]

/-! Lemmas about the per-product sweep step. -/

theorem processProduct_entry_previousStock (r : String → Bool) (fr : FetchResult)
    (p : WatchEntry) :
    (processProduct r fr p).entry.previousStock = stockFromSizes fr.sizeMapping := rfl

theorem processProduct_entry_watchAll (r : String → Bool) (fr : FetchResult)
    (p : WatchEntry) : (processProduct r fr p).entry.watchAll = p.watchAll := rfl

theorem processProduct_entry_watchedSizes (r : String → Bool) (fr : FetchResult)
    (p : WatchEntry) : (processProduct r fr p).entry.watchedSizes = p.watchedSizes := rfl

theorem processProduct_entry_productId (r : String → Bool) (fr : FetchResult)
    (p : WatchEntry) : (processProduct r fr p).entry.productId = p.productId := rfl

theorem processProduct_entry_hadSizes (r : String → Bool) (fr : FetchResult)
    (p : WatchEntry) :
    (processProduct r fr p).entry.hadSizes =
      (if p.watchAll then !fr.sizeMapping.isEmpty else p.hadSizes) := by
  by_cases h : p.watchAll <;>
    simp [processProduct, h, processWatchAllBlock_fst]

theorem processProduct_repeat (r1 r2 : String → Bool) (fr : FetchResult)
    (p : WatchEntry) :
    (processProduct r2 fr (processProduct r1 fr p).entry).resCalls = [] ∧
      (processProduct r2 fr (processProduct r1 fr p).entry).notifs = [] := by
  have hW := processProduct_entry_watchAll r1 fr p
  have hH := processProduct_entry_hadSizes r1 fr p
  have hP := processProduct_entry_previousStock r1 fr p
  cases h : p.watchAll with
  | true =>
    rw [h, if_pos rfl] at hH
    rw [h] at hW
    generalize hgen : (processProduct r1 fr p).entry = e at hW hH hP ⊢
    constructor <;>
      simp [processProduct, hW, hH, hP, processWatchAllBlock_same,
        watchLoop_stable_calls, watchLoop_stable_notifs]
  | false =>
    rw [h] at hW
    generalize hgen : (processProduct r1 fr p).entry = e at hW hH hP ⊢
    constructor <;>
      simp [processProduct, hW, hP, watchLoop_stable_calls, watchLoop_stable_notifs]

/-! Lemmas about whole sweeps. -/

theorem sweepGo_registry_nil (rv : Nat → String → Bool)
    (f : Nat → Except String FetchResult) (w : String) :
    ∀ (l : List (String × WatchEntry)) (flag : Bool),
    ((sweepGo rv f w l flag).registry = [] ↔ l = []) := by
  intro l
  induction l with
  | nil => intro flag; simp [sweepGo]
  | cons kp rest ih =>
    obtain ⟨key, p⟩ := kp
    intro flag
    cases hf : f p.productId <;> simp [sweepGo, hf]

theorem sweepGo_repeat (rv1 rv2 : Nat → String → Bool)
    (f : Nat → Except String FetchResult) (w : String) :
    ∀ (l : List (String × WatchEntry)) (flag1 flag2 : Bool),
    (sweepGo rv2 f w (sweepGo rv1 f w l flag1).registry flag2).resCalls = [] ∧
      (sweepGo rv2 f w (sweepGo rv1 f w l flag1).registry flag2).notifs = [] := by
  intro l
  induction l with
  | nil => intro flag1 flag2; exact ⟨rfl, rfl⟩
  | cons kp rest ih =>
    obtain ⟨key, p⟩ := kp
    intro flag1 flag2
    cases hf : f p.productId with
    | ok fr =>
      have hrep := processProduct_repeat (rv1 p.productId) (rv2 p.productId) fr p
      obtain ⟨hrec1, hrec2⟩ := ih flag1 flag2
      constructor <;>
        simp [sweepGo, hf, processProduct_entry_productId, hrep.1, hrep.2, hrec1, hrec2]
    | error msg =>
      obtain ⟨hrec1, hrec2⟩ :=
        ih (handleMonitorErrorFlag msg flag1 w).1 (handleMonitorErrorFlag msg flag2 w).1
      constructor <;> simp [sweepGo, hf, hrec1, hrec2]

theorem monitorAll_interval (rv : Nat → String → Bool)
    (f : Nat → Except String FetchResult) (st : GlobalState) :
    (monitorAll rv f st).state.monitoringInterval = st.monitoringInterval := by
  by_cases h : st.monitoredProducts.isEmpty <;> simp [monitorAll, h]

theorem monitorAll_history (rv : Nat → String → Bool)
    (f : Nat → Except String FetchResult) (st : GlobalState) :
    (monitorAll rv f st).state.productHistory = st.productHistory := by
  by_cases h : st.monitoredProducts.isEmpty <;> simp [monitorAll, h]

theorem monitorAll_webhook (rv : Nat → String → Bool)
    (f : Nat → Except String FetchResult) (st : GlobalState) :
    (monitorAll rv f st).state.discordWebhook = st.discordWebhook := by
  by_cases h : st.monitoredProducts.isEmpty <;> simp [monitorAll, h]

theorem monitorAll_registry_nil (rv : Nat → String → Bool)
    (f : Nat → Except String FetchResult) (st : GlobalState) :
    ((monitorAll rv f st).state.monitoredProducts = [] ↔ st.monitoredProducts = []) := by
  by_cases h : st.monitoredProducts.isEmpty
  · simp [monitorAll, h]
  · simp [monitorAll, h, sweepGo_registry_nil]

/-- Claim C3 (confirmed): for every registry state, if two consecutive sweeps
observe identical upstream availability for every monitored product (modelled
by running both sweeps against the same fetch oracle), the second sweep
performs zero reservation calls and sends zero stock notifications, whatever
the reservation oracles do. -/
theorem c3_second_sweep_silent (rv1 rv2 : Nat → String → Bool)
    (f : Nat → Except String FetchResult) (st : GlobalState) :
    (monitorAll rv2 f (monitorAll rv1 f st).state).resCalls = [] ∧
      (monitorAll rv2 f (monitorAll rv1 f st).state).notifs = [] := by
  by_cases h : st.monitoredProducts.isEmpty
  · simp [monitorAll, h]
  · have hreg :
        ¬ ((sweepGo rv1 f st.discordWebhook st.monitoredProducts
            st.tokenExpiredNotified).registry.isEmpty = true) := by
      rw [List.isEmpty_iff, sweepGo_registry_nil]
      rw [List.isEmpty_iff] at h
      exact h
    obtain ⟨h1, h2⟩ :=
      sweepGo_repeat rv1 rv2 f st.discordWebhook st.monitoredProducts
        st.tokenExpiredNotified
        ((sweepGo rv1 f st.discordWebhook st.monitoredProducts
          st.tokenExpiredNotified).flag)
    constructor <;> simp [monitorAll, h, hreg, h1, h2]

/-- Claim C1 counterexample: product watched for size A, size A appears and
the reservation fails.  The first sweep attempts the reservation (resCalls is
A), sends no notification and records nothing as notified, but the next sweep
with size A still in stock performs NO reservation call at all: the edge
condition does not recur, because previousStock was overwritten. -/
theorem c1_counterexample :
    (processProduct (fun _ => false) cexFetchC1 cexEntryC1).resCalls = ["A"] ∧
      (processProduct (fun _ => false) cexFetchC1 cexEntryC1).notifs = [] ∧
      (processProduct (fun _ => false) cexFetchC1 cexEntryC1).entry.notified = [] ∧
      (processProduct (fun _ => false) cexFetchC1
        (processProduct (fun _ => false) cexFetchC1 cexEntryC1).entry).resCalls = [] := by
  decide

/-- Claim C1 (corrected): if the stock-appeared reservation for a watched size
fails, no notification is sent for it and it is not added to notifiedSizes;
however previousAvailability is still overwritten with the new snapshot, so
on the next sweep the stored wasInStock is true, the edge condition does NOT
hold again, and no reservation for that size is re-attempted. -/
theorem c1_reservation_failure (r : String → Bool) (fr : FetchResult)
    (p : WatchEntry) (s : String)
    (hW : p.watchAll = false) (hr : r s = false) (hn : s ∉ p.notified)
    (hin : lookupInStock (stockFromSizes fr.sizeMapping) s = true) :
    s ∉ (processProduct r fr p).notifs ∧
      s ∉ (processProduct r fr p).entry.notified ∧
      ∀ (r2 : String → Bool) (fr2 : FetchResult),
        s ∉ (processProduct r2 fr2 (processProduct r fr p).entry).resCalls := by
  refine ⟨?_, ?_, ?_⟩
  · have h := (watchLoop_not_added r (stockFromSizes fr.sizeMapping)
      p.previousStock hr p.watchedSizes p.notified hn).2
    simpa [processProduct, hW] using h
  · have h := (watchLoop_not_added r (stockFromSizes fr.sizeMapping)
      p.previousStock hr p.watchedSizes p.notified hn).1
    simpa [processProduct, hW] using h
  · intro r2 fr2
    have hW2 : (processProduct r fr p).entry.watchAll = false := by
      rw [processProduct_entry_watchAll]; exact hW
    have hP2 : lookupInStock (processProduct r fr p).entry.previousStock s = true := by
      rw [processProduct_entry_previousStock]; exact hin
    generalize (processProduct r fr p).entry = e at hW2 hP2
    have h := watchLoop_no_attempt r2 (stockFromSizes fr2.sizeMapping)
      e.previousStock hP2 e.watchedSizes e.notified
    simpa [processProduct, hW2] using h

/-- Witness for c1_reservation_failure at the concrete C1 scenario. -/
theorem c1_witness :
    cexEntryC1.watchAll = false ∧
      "A" ∉ (processProduct (fun _ => false) cexFetchC1 cexEntryC1).notifs ∧
      "A" ∉ (processProduct (fun _ => false) cexFetchC1
        (processProduct (fun _ => false) cexFetchC1 cexEntryC1).entry).resCalls :=
  ⟨by decide,
    (c1_reservation_failure (fun _ => false) cexFetchC1 cexEntryC1 "A"
      (by decide) (by decide) (by decide) (by decide)).1,
    (c1_reservation_failure (fun _ => false) cexFetchC1 cexEntryC1 "A"
      (by decide) (by decide) (by decide) (by decide)).2.2 (fun _ => false) cexFetchC1⟩

/-- Claim C2 counterexample: on a WatchAny restock edge with sizes A and B
appearing simultaneously and the reservation for A failing, the engine makes
TWO reservation calls (A then B), so it neither makes at most one reservation
call nor attempts only the first size. -/
theorem c2_counterexample :
    (processProduct (fun s => s == "B") cexFetchC2 cexEntryC2).resCalls = ["A", "B"] ∧
      ¬ ((processProduct (fun s => s == "B") cexFetchC2 cexEntryC2).resCalls.length ≤ 1) := by
  decide

/-- Claim C2 (corrected): on a WatchAny restock edge the engine attempts
reservations in size-map order until the first success (possibly several
reservation calls), performs at most one successful reservation, sends at
most one notification, for that successful size only, and adds exactly that
size to notifiedSizes. -/
theorem c2_restock_policy (r : String → Bool) (fr : FetchResult) (p : WatchEntry)
    (hW : p.watchAll = true) (hH : p.hadSizes = false) (hS : p.watchedSizes = []) :
    (processProduct r fr p).resCalls = attemptsUntilSuccess r (fr.sizeMapping.map Prod.fst) ∧
      (processProduct r fr p).notifs = (firstSuccess r (fr.sizeMapping.map Prod.fst)).toList ∧
      (processProduct r fr p).notifs.length ≤ 1 ∧
      (processProduct r fr p).entry.notified =
        (match firstSuccess r (fr.sizeMapping.map Prod.fst) with
         | some s => setAdd p.notified s
         | none => p.notified) := by
  by_cases he : fr.sizeMapping.isEmpty
  · have hnil : fr.sizeMapping = [] := List.isEmpty_iff.mp he
    rw [hnil]
    simp [processProduct, hW, hH, hS, hnil, processWatchAllBlock, firstSuccess,
      attemptsUntilSuccess, watchLoop]
  · rw [Bool.not_eq_true] at he
    have hblock :
        processWatchAllBlock r (!fr.sizeMapping.isEmpty) fr.sizeMapping false p.notified =
          (true,
            { notified := (watchAllGo r fr.sizeMapping
                { addedToCart := false, notified := p.notified, resCalls := [], notifs := [] }).notified,
              resCalls := (watchAllGo r fr.sizeMapping
                { addedToCart := false, notified := p.notified, resCalls := [], notifs := [] }).resCalls,
              notifs := (watchAllGo r fr.sizeMapping
                { addedToCart := false, notified := p.notified, resCalls := [], notifs := [] }).notifs }) := by
      simp [processWatchAllBlock, he]
    rw [watchAllGo_spec] at hblock
    cases hfs : firstSuccess r (fr.sizeMapping.map Prod.fst) with
    | none =>
      rw [hfs] at hblock
      simp [processProduct, hW, hH, hS, hblock, hfs, watchLoop]
    | some s =>
      rw [hfs] at hblock
      simp [processProduct, hW, hH, hS, hblock, hfs, watchLoop]

/-- Witness for c2_restock_policy at the concrete C2 scenario. -/
theorem c2_witness :
    cexEntryC2.watchAll = true ∧
      (processProduct (fun s => s == "B") cexFetchC2 cexEntryC2).notifs.length ≤ 1 :=
  ⟨by decide,
    (c2_restock_policy (fun s => s == "B") cexFetchC2 cexEntryC2
      (by decide) (by decide) (by decide)).2.2.1⟩

/-- Claim C4 counterexample: a watch-any product added out of stock, restocked
with sizes A and B (A reserved and notified), then A delisted while B remains.
After the second sweep size A is still recorded as notified although it is
out of stock in the latest snapshot: notifiedSizes is not a subset of the
in-stock sizes, because the re-arm rule only scans watchedSizes. -/
theorem c4_counterexample :
    (mapLookup stC4delist.monitoredProducts "7").isSome = true ∧
      "A" ∈ c4FinalEntry.notified ∧
      lookupInStock c4FinalEntry.previousStock "A" = false := by
  decide

/-- Claim C4 (corrected): the invariant holds restricted to the watched-size
set: after a sweep step, every size of watchedSizes still in notifiedSizes is
in stock in the snapshot just stored as previousAvailability. -/
theorem c4_notified_watched_inStock (r : String → Bool) (fr : FetchResult)
    (p : WatchEntry) (s : String)
    (hw : s ∈ p.watchedSizes)
    (hmem : s ∈ (processProduct r fr p).entry.notified) :
    lookupInStock (processProduct r fr p).entry.previousStock s = true := by
  rw [processProduct_entry_previousStock]
  exact watchLoop_mem_inStock r (stockFromSizes fr.sizeMapping) p.previousStock s
    p.watchedSizes _ hw hmem

/-- Witness for c4_notified_watched_inStock at a concrete input. -/
theorem c4_witness :
    "A" ∈ cexEntryC1.watchedSizes ∧
      lookupInStock (processProduct (fun _ => true) cexFetchC1 cexEntryC1).entry.previousStock "A" = true :=
  ⟨by decide,
    c4_notified_watched_inStock (fun _ => true) cexFetchC1 cexEntryC1 "A"
      (by decide) (by decide)⟩

/-- Claim C9 (confirmed): replacing the watched sizes of a monitored product
changes only that watched-size set.  The notified set, previous availability,
hadSizes flag, last descriptor and last size mapping of the entry, every other
registry entry, and all other global state are unchanged. -/
theorem c9_updateSizes_frame (st : GlobalState) (key : String)
    (ws : Option (List String)) (p : WatchEntry)
    (hp : mapLookup st.monitoredProducts key = some p) :
    (apiUpdateSizes st key ws).2 = true ∧
      mapLookup (apiUpdateSizes st key ws).1.monitoredProducts key =
        some { p with watchedSizes := jsNewSet ws } ∧
      (∀ k, k ≠ key → mapLookup (apiUpdateSizes st key ws).1.monitoredProducts k =
        mapLookup st.monitoredProducts k) ∧
      (apiUpdateSizes st key ws).1.productHistory = st.productHistory ∧
      (apiUpdateSizes st key ws).1.monitoringInterval = st.monitoringInterval ∧
      (apiUpdateSizes st key ws).1.tokenExpiredNotified = st.tokenExpiredNotified ∧
      (apiUpdateSizes st key ws).1.discordWebhook = st.discordWebhook ∧
      (apiUpdateSizes st key ws).1.basicAuth = st.basicAuth ∧
      (apiUpdateSizes st key ws).1.cookies = st.cookies := by
  simp only [apiUpdateSizes, hp]
  refine ⟨trivial, ?_, ?_, trivial, trivial, trivial, trivial, trivial, trivial⟩
  · exact mapLookup_mapSet_self st.monitoredProducts key _
  · intro k hk
    exact mapLookup_mapSet_ne st.monitoredProducts key k _ hk

/-- Witness for c9_updateSizes_frame at a concrete registry. -/
theorem c9_witness :
    (apiUpdateSizes stC5one "3" (some ["X"])).2 = true ∧
      (apiUpdateSizes stC5one "3" (some ["X"])).1.productHistory = stC5one.productHistory :=
  ⟨(c9_updateSizes_frame stC5one "3" (some ["X"])
      ((mapLookup stC5one.monitoredProducts "3").getD defaultEntry) (by decide)).1,
    (c9_updateSizes_frame stC5one "3" (some ["X"])
      ((mapLookup stC5one.monitoredProducts "3").getD defaultEntry) (by decide)).2.2.2.1⟩

/-- Claim C10 (confirmed): a replace-watched-sizes request whose body omits
watchedSizes (or sends null, both modelled as none) succeeds without any
validation error and sets the watched-size set of the entry to empty. -/
theorem c10_updateSizes_null_body (st : GlobalState) (key : String)
    (p : WatchEntry) (hp : mapLookup st.monitoredProducts key = some p) :
    (apiUpdateSizes st key none).2 = true ∧
      mapLookup (apiUpdateSizes st key none).1.monitoredProducts key =
        some { p with watchedSizes := [] } := by
  simp only [apiUpdateSizes, hp]
  exact ⟨trivial, mapLookup_mapSet_self st.monitoredProducts key _⟩

/-- Witness for c10_updateSizes_null_body at a concrete registry. -/
theorem c10_witness :
    (apiUpdateSizes stC5one "3" none).2 = true ∧
      mapLookup (apiUpdateSizes stC5one "3" none).1.monitoredProducts "3" =
        some { (mapLookup stC5one.monitoredProducts "3").getD defaultEntry with
                watchedSizes := [] } :=
  ⟨(c10_updateSizes_null_body stC5one "3"
      ((mapLookup stC5one.monitoredProducts "3").getD defaultEntry) (by decide)).1,
    (c10_updateSizes_null_body stC5one "3"
      ((mapLookup stC5one.monitoredProducts "3").getD defaultEntry) (by decide)).2⟩

/-- Claim C6 (confirmed): when an add request passes validation but the
initial fetch fails, the endpoint returns the failure response and neither
the registry, nor the scheduler, nor the history is touched. -/
theorem c6_add_fetch_failure (rv : Nat → String → Bool)
    (f : Nat → Except String FetchResult) (now : Nat) (st : GlobalState)
    (req : AddRequest) (pid : Nat) (msg : String)
    (hpid : req.productId = some pid) (h0 : pid ≠ 0)
    (hval : req.watchAll = true ∨ ∃ l, req.watchedSizes = some l ∧ l ≠ [])
    (hf : f pid = .error msg) :
    (apiAdd rv f now st req).2 = AddResp.serverError msg ∧
      (apiAdd rv f now st req).1.monitoredProducts = st.monitoredProducts ∧
      (apiAdd rv f now st req).1.monitoringInterval = st.monitoringInterval ∧
      (apiAdd rv f now st req).1.productHistory = st.productHistory := by
  have hcond : (!req.watchAll &&
      (match req.watchedSizes with | none => true | some l => l.isEmpty)) = false := by
    rcases hval with h | ⟨l, hl, hne⟩
    · simp [h]
    · have hl2 : l.isEmpty = false := by
        rw [Bool.eq_false_iff]
        intro hcontr
        exact hne (List.isEmpty_iff.mp hcontr)
      rw [hl]
      cases req.watchAll <;> simp [hl2]
  simp only [apiAdd, hpid, h0, hcond, hf]
  by_cases ha : isAuthErrorEndpoint msg = true <;>
    simp [ha, sendTokenExpired]

/-- Witness for c6_add_fetch_failure at a concrete failing fetch. -/
theorem c6_witness :
    (apiAdd (fun _ _ => false) (fun _ => .error "boom") 0 stC5one
        { productId := some 9, watchedSizes := some ["A"], watchAll := false }).2 =
      AddResp.serverError "boom" ∧
      (apiAdd (fun _ _ => false) (fun _ => .error "boom") 0 stC5one
        { productId := some 9, watchedSizes := some ["A"], watchAll := false }).1.monitoredProducts =
        stC5one.monitoredProducts :=
  ⟨(c6_add_fetch_failure (fun _ _ => false) (fun _ => .error "boom") 0 stC5one
      { productId := some 9, watchedSizes := some ["A"], watchAll := false } 9 "boom"
      (by decide) (by decide) (Or.inr ⟨["A"], by decide, by decide⟩) rfl).1,
    (c6_add_fetch_failure (fun _ _ => false) (fun _ => .error "boom") 0 stC5one
      { productId := some 9, watchedSizes := some ["A"], watchAll := false } 9 "boom"
      (by decide) (by decide) (Or.inr ⟨["A"], by decide, by decide⟩) rfl).2.1⟩

/-! Lemmas for the token-expired alert lifecycle. -/

theorem handleMonitorErrorFlag_flagged (msg w : String) :
    handleMonitorErrorFlag msg true w = (true, false) := by
  simp [handleMonitorErrorFlag, tokenNotifyStep]

theorem credRun_cons (st : GlobalState) (e : CredEvent) (rest : List CredEvent) :
    credRun st (e :: rest) =
      ((credRun (credStep st e).1 rest).1,
        (if (credStep st e).2 then 1 else 0) + (credRun (credStep st e).1 rest).2) := rfl

theorem credRun_flagged (msgs : List String) : ∀ st : GlobalState,
    st.tokenExpiredNotified = true →
    (credRun st (msgs.map CredEvent.failure)).2 = 0 ∧
      (credRun st (msgs.map CredEvent.failure)).1.tokenExpiredNotified = true := by
  induction msgs with
  | nil => intro st h; exact ⟨rfl, h⟩
  | cons m rest ih =>
    intro st h
    have hstep1 : (credStep st (CredEvent.failure m)).1.tokenExpiredNotified = true := by
      simp [credStep, h, handleMonitorErrorFlag_flagged]
    have hstep2 : (credStep st (CredEvent.failure m)).2 = false := by
      simp [credStep, h, handleMonitorErrorFlag_flagged]
    obtain ⟨h1, h2⟩ := ih _ hstep1
    rw [List.map_cons, credRun_cons, hstep2]
    exact ⟨by simp [h1], h2⟩

theorem apiConfigAuth_flag (st : GlobalState) (h b c : Option String) :
    (apiConfigAuth st h b c).1.tokenExpiredNotified = false := rfl

theorem apiConfigAuth_webhook (st : GlobalState) (h b c : Option String) :
    (apiConfigAuth st h b c).1.discordWebhook = st.discordWebhook := by
  simp only [apiConfigAuth, resetTokenExpiredFlag]
  cases h <;> cases b <;> cases c <;> simp <;> split_ifs <;> rfl

/-- Claim C7 (confirmed): once the credentials-expired alert has fired
(suppression flag set), no further auth-signalled per-product failure fires it
again; after a credential update clears the flag, the next auth-signalled
failure fires the alert and every subsequent one is again suppressed, so the
whole post-reset run delivers exactly one alert. -/
theorem c7_alert_once :
    (∀ (st : GlobalState) (msgs : List String), st.tokenExpiredNotified = true →
      (credRun st (msgs.map CredEvent.failure)).2 = 0) ∧
    (∀ (st : GlobalState) (h b c : Option String) (m : String) (msgs : List String),
      st.discordWebhook ≠ "" → isAuthErrorMonitor m = true →
      (credRun st (CredEvent.credUpdate h b c :: CredEvent.failure m ::
        msgs.map CredEvent.failure)).2 = 1) := by
  constructor
  · intro st msgs hflag
    exact (credRun_flagged msgs st hflag).1
  · intro st h b c m msgs hw hm
    rw [credRun_cons]
    have hu2 : (credStep st (CredEvent.credUpdate h b c)).2 = false := rfl
    rw [hu2]
    have hf1 : (credStep st (CredEvent.credUpdate h b c)).1.tokenExpiredNotified = false :=
      apiConfigAuth_flag st h b c
    have hw1 : (credStep st (CredEvent.credUpdate h b c)).1.discordWebhook ≠ "" := by
      show (apiConfigAuth st h b c).1.discordWebhook ≠ ""
      rw [apiConfigAuth_webhook]
      exact hw
    generalize (credStep st (CredEvent.credUpdate h b c)).1 = st1 at hf1 hw1
    rw [credRun_cons]
    have hm2 : (credStep st1 (CredEvent.failure m)).2 = true := by
      simp [credStep, handleMonitorErrorFlag, hm, tokenNotifyStep, hf1, hw1]
    have hm1 : (credStep st1 (CredEvent.failure m)).1.tokenExpiredNotified = true := by
      simp [credStep, handleMonitorErrorFlag, hm, tokenNotifyStep, hf1, hw1]
    rw [hm2]
    obtain ⟨hz, _⟩ := credRun_flagged msgs _ hm1
    rw [hz]
    simp

/-- Witness for c7_alert_once at concrete states and messages. -/
theorem c7_witness :
    stC7flagged.tokenExpiredNotified = true ∧
      (credRun stC7flagged (["HTTP 401: x"].map CredEvent.failure)).2 = 0 ∧
      (credRun (initialState "wh" "" "")
        (CredEvent.credUpdate none none none :: CredEvent.failure "HTTP 401: x" ::
          (["HTTP 403: y"].map CredEvent.failure))).2 = 1 :=
  ⟨by decide,
    c7_alert_once.1 stC7flagged ["HTTP 401: x"] (by decide),
    c7_alert_once.2 (initialState "wh" "" "") none none none "HTTP 401: x"
      ["HTTP 403: y"] (by decide) (by decide)⟩

/-! Frame lemmas: which global fields each endpoint leaves untouched. -/

theorem apiRemove_history (st : GlobalState) (key : String) :
    (apiRemove st key).1.productHistory = st.productHistory := by
  by_cases h : mapHas st.monitoredProducts key = true <;> simp [apiRemove, h]

theorem apiUpdateSizes_frameRI (st : GlobalState) (key : String)
    (ws : Option (List String)) :
    (apiUpdateSizes st key ws).1.monitoringInterval = st.monitoringInterval ∧
      (apiUpdateSizes st key ws).1.productHistory = st.productHistory := by
  cases h : mapLookup st.monitoredProducts key <;> simp [apiUpdateSizes, h]

theorem apiResetNotifications_frameRI (st : GlobalState) (key : String) :
    (apiResetNotifications st key).1.monitoringInterval = st.monitoringInterval ∧
      (apiResetNotifications st key).1.productHistory = st.productHistory := by
  cases h : mapLookup st.monitoredProducts key <;> simp [apiResetNotifications, h]

theorem apiConfigAuth_frame (st : GlobalState) (h b c : Option String) :
    (apiConfigAuth st h b c).1.monitoredProducts = st.monitoredProducts ∧
      (apiConfigAuth st h b c).1.monitoringInterval = st.monitoringInterval ∧
      (apiConfigAuth st h b c).1.productHistory = st.productHistory := by
  simp only [apiConfigAuth, resetTokenExpiredFlag]
  cases h <;> cases b <;> cases c <;>
    refine ⟨?_, ?_, ?_⟩ <;> simp <;> split_ifs <;> rfl

theorem apiConfigDiscord_frame (st : GlobalState) (w : String) :
    (apiConfigDiscord st w).1.monitoredProducts = st.monitoredProducts ∧
      (apiConfigDiscord st w).1.monitoringInterval = st.monitoringInterval ∧
      (apiConfigDiscord st w).1.productHistory = st.productHistory := by
  by_cases h : w = "" <;> simp [apiConfigDiscord, h]

theorem apiFetchPreview_frame (f : Nat → Except String FetchResult)
    (st : GlobalState) (pid : Nat) :
    (apiFetchPreview f st pid).1.monitoredProducts = st.monitoredProducts ∧
      (apiFetchPreview f st pid).1.monitoringInterval = st.monitoringInterval ∧
      (apiFetchPreview f st pid).1.productHistory = st.productHistory := by
  cases hf : f pid with
  | ok fr => simp [apiFetchPreview, hf]
  | error msg =>
    by_cases ha : isAuthErrorEndpoint msg = true <;>
      simp [apiFetchPreview, hf, ha, sendTokenExpired]

theorem apiDeleteHistory_frame (st : GlobalState) (k : Nat) :
    (apiDeleteHistory st k).1.monitoredProducts = st.monitoredProducts ∧
      (apiDeleteHistory st k).1.monitoringInterval = st.monitoringInterval := by
  by_cases h : mapHas st.productHistory k = true <;> simp [apiDeleteHistory, h]

/-- Case split for the add endpoint: either it fails and leaves the registry,
the scheduler and the history untouched, or it succeeds, writes one registry
entry, starts the scheduler and writes one history entry. -/
theorem apiAdd_cases (rv : Nat → String → Bool)
    (f : Nat → Except String FetchResult) (now : Nat) (st : GlobalState)
    (req : AddRequest) :
    ((apiAdd rv f now st req).2 ≠ AddResp.ok ∧
      (apiAdd rv f now st req).1.monitoredProducts = st.monitoredProducts ∧
      (apiAdd rv f now st req).1.monitoringInterval = st.monitoringInterval ∧
      (apiAdd rv f now st req).1.productHistory = st.productHistory) ∨
    ((apiAdd rv f now st req).2 = AddResp.ok ∧
      (∃ k e, (apiAdd rv f now st req).1.monitoredProducts = mapSet st.monitoredProducts k e) ∧
      (apiAdd rv f now st req).1.monitoringInterval = true ∧
      (∃ pid hh, (apiAdd rv f now st req).1.productHistory = mapSet st.productHistory pid hh)) := by
  cases hpid : req.productId with
  | none => left; simp [apiAdd, hpid]
  | some pid =>
    by_cases h0 : pid = 0
    · left; simp [apiAdd, hpid, h0]
    · by_cases hcond : (!req.watchAll &&
        (match req.watchedSizes with | none => true | some l => l.isEmpty)) = true
      · left; simp [apiAdd, hpid, h0, hcond]
      · rw [Bool.not_eq_true] at hcond
        cases hf : f pid with
        | error msg =>
          left
          simp only [apiAdd, hpid, h0, hcond, hf]
          by_cases ha : isAuthErrorEndpoint msg = true <;>
            simp [ha, sendTokenExpired]
        | ok fr =>
          right
          simp only [apiAdd, hpid, h0, hcond, hf]
          refine ⟨by simp, ⟨toString pid, _, rfl⟩, by simp, pid, _, rfl⟩

/-- Claim C8 counterexample: product 7 is added at tick 0 (history timestamp
0); a later sweep processes it, attempting a reservation, yet the history map
is completely unchanged: no sweep ever updates the lastMonitored timestamp. -/
theorem c8_counterexample :
    (monitorAll (fun _ _ => true) fetchSizesAB stC8add).resCalls = [(7, "A")] ∧
      (monitorAll (fun _ _ => true) fetchSizesAB stC8add).state.productHistory =
        stC8add.productHistory ∧
      ((mapLookup stC8add.productHistory 7).map HistoryEntry.lastMonitored) = some 0 := by
  decide

/-- Claim C8 (corrected): a HistoryEntry is written, with both timestamps set
to the add time, only by the add operation; sweeps leave the history map
completely unchanged (they do not refresh lastMonitored), removal from the
registry leaves it unchanged, and entries disappear only through the explicit
history-clear operations. -/
theorem c8_history_lifecycle :
    (∀ rv f st, (monitorAll rv f st).state.productHistory = st.productHistory) ∧
      (∀ st key, (apiRemove st key).1.productHistory = st.productHistory) ∧
      (∀ st, (apiClearHistory st).1.productHistory = []) ∧
      (∀ st op k, isHistoryClear op = false →
        mapHas st.productHistory k = true →
        mapHas (applyOp st op).productHistory k = true) := by
  refine ⟨monitorAll_history, apiRemove_history, fun st => rfl, ?_⟩
  intro st op k hop hk
  cases op with
  | add rv f now req =>
    rcases apiAdd_cases rv f now st req with ⟨_, _, _, hh⟩ | ⟨_, _, _, pid, hh, heq⟩
    · show mapHas (apiAdd rv f now st req).1.productHistory k = true
      rw [hh]; exact hk
    · show mapHas (apiAdd rv f now st req).1.productHistory k = true
      rw [heq]
      exact mapHas_mapSet_of pid hh hk
  | remove key =>
    show mapHas (apiRemove st key).1.productHistory k = true
    rw [apiRemove_history]; exact hk
  | updateSizes key ws =>
    show mapHas (apiUpdateSizes st key ws).1.productHistory k = true
    rw [(apiUpdateSizes_frameRI st key ws).2]; exact hk
  | resetNotifs key =>
    show mapHas (apiResetNotifications st key).1.productHistory k = true
    rw [(apiResetNotifications_frameRI st key).2]; exact hk
  | sweep rv f =>
    show mapHas (monitorAll rv f st).state.productHistory k = true
    rw [monitorAll_history]; exact hk
  | configAuth h b c =>
    show mapHas (apiConfigAuth st h b c).1.productHistory k = true
    rw [(apiConfigAuth_frame st h b c).2.2]; exact hk
  | configDiscord w =>
    show mapHas (apiConfigDiscord st w).1.productHistory k = true
    rw [(apiConfigDiscord_frame st w).2.2]; exact hk
  | clearHistory => exact absurd hop (by simp [isHistoryClear])
  | deleteHistory k2 => exact absurd hop (by simp [isHistoryClear])
  | fetchPreview f pid =>
    show mapHas (apiFetchPreview f st pid).1.productHistory k = true
    rw [(apiFetchPreview_frame f st pid).2.2]; exact hk

/-- Witness for c8_history_lifecycle at a concrete operation and key. -/
theorem c8_witness :
    mapHas (applyOp stC8add (Op.remove "7")).productHistory 7 = true :=
  c8_history_lifecycle.2.2.2 stC8add (Op.remove "7") 7 (by decide) (by decide)

/-- With the coupling invariant, a nonempty registry forces a running
scheduler. -/
theorem SchedulerInv_interval {st : GlobalState} (hinv : SchedulerInv st)
    (hne : st.monitoredProducts ≠ []) : st.monitoringInterval = true := by
  cases hI : st.monitoringInterval
  · exact absurd (hinv.mpr hI) hne
  · rfl

/-- Claim C5 (confirmed): in every reachable state the registry is empty iff
the scheduler is stopped: the invariant holds initially and is preserved by
every operation of the control surface; moreover a successful add of the
first product starts the scheduler, removing the only product stops it, and
removing one of several products leaves it running. -/
theorem c5_registry_scheduler :
    (∀ w a c, SchedulerInv (initialState w a c)) ∧
      (∀ st op, SchedulerInv st → SchedulerInv (applyOp st op)) ∧
      (∀ rv f now st req, st.monitoredProducts = [] →
        (apiAdd rv f now st req).2 = AddResp.ok →
        (apiAdd rv f now st req).1.monitoringInterval = true) ∧
      (∀ st key p, st.monitoredProducts = [(key, p)] →
        (apiRemove st key).1.monitoringInterval = false) ∧
      (∀ st key, SchedulerInv st → mapHas st.monitoredProducts key = true →
        mapDelete st.monitoredProducts key ≠ [] →
        (apiRemove st key).1.monitoringInterval = true) := by
  refine ⟨?_, ?_, ?_, ?_, ?_⟩
  · intro w a c
    simp [SchedulerInv, initialState]
  · intro st op hinv
    cases op with
    | add rv f now req =>
      rcases apiAdd_cases rv f now st req with ⟨_, hreg, hint, _⟩ | ⟨_, ⟨k, e, hreg⟩, hint, _⟩
      · show SchedulerInv (apiAdd rv f now st req).1
        unfold SchedulerInv
        rw [hreg, hint]
        exact hinv
      · show SchedulerInv (apiAdd rv f now st req).1
        unfold SchedulerInv
        rw [hreg, hint]
        have hne := mapSet_ne_nil st.monitoredProducts k e
        simp [hne]
    | remove key =>
      show SchedulerInv (apiRemove st key).1
      by_cases h : mapHas st.monitoredProducts key = true
      · by_cases hreg : mapDelete st.monitoredProducts key = []
        · simp [SchedulerInv, apiRemove, h, hreg]
        · have hne : st.monitoredProducts ≠ [] := mapHas_ne_nil h
          have hint := SchedulerInv_interval hinv hne
          have hie : (mapDelete st.monitoredProducts key).isEmpty = false := by
            rw [Bool.eq_false_iff]
            intro hc
            exact hreg (List.isEmpty_iff.mp hc)
          simp [SchedulerInv, apiRemove, h, hreg, hie, hint]
      · simp only [apiRemove, h, Bool.false_eq_true, if_false]
        exact hinv
    | updateSizes key ws =>
      show SchedulerInv (apiUpdateSizes st key ws).1
      cases hl : mapLookup st.monitoredProducts key with
      | none =>
        simp only [apiUpdateSizes, hl]
        exact hinv
      | some p =>
        have hne : st.monitoredProducts ≠ [] := by
          intro he
          rw [he] at hl
          simp [mapLookup] at hl
        have hint := SchedulerInv_interval hinv hne
        have hset := mapSet_ne_nil st.monitoredProducts key
          { p with watchedSizes := jsNewSet ws }
        simp [SchedulerInv, apiUpdateSizes, hl, hint, hset]
    | resetNotifs key =>
      show SchedulerInv (apiResetNotifications st key).1
      cases hl : mapLookup st.monitoredProducts key with
      | none =>
        simp only [apiResetNotifications, hl]
        exact hinv
      | some p =>
        have hne : st.monitoredProducts ≠ [] := by
          intro he
          rw [he] at hl
          simp [mapLookup] at hl
        have hint := SchedulerInv_interval hinv hne
        have hset := mapSet_ne_nil st.monitoredProducts key { p with notified := [] }
        simp [SchedulerInv, apiResetNotifications, hl, hint, hset]
    | sweep rv f =>
      show SchedulerInv (monitorAll rv f st).state
      unfold SchedulerInv
      rw [monitorAll_registry_nil, monitorAll_interval]
      exact hinv
    | configAuth h b c =>
      show SchedulerInv (apiConfigAuth st h b c).1
      unfold SchedulerInv
      rw [(apiConfigAuth_frame st h b c).1, (apiConfigAuth_frame st h b c).2.1]
      exact hinv
    | configDiscord w =>
      show SchedulerInv (apiConfigDiscord st w).1
      unfold SchedulerInv
      rw [(apiConfigDiscord_frame st w).1, (apiConfigDiscord_frame st w).2.1]
      exact hinv
    | clearHistory =>
      exact hinv
    | deleteHistory k =>
      show SchedulerInv (apiDeleteHistory st k).1
      unfold SchedulerInv
      rw [(apiDeleteHistory_frame st k).1, (apiDeleteHistory_frame st k).2]
      exact hinv
    | fetchPreview f pid =>
      show SchedulerInv (apiFetchPreview f st pid).1
      unfold SchedulerInv
      rw [(apiFetchPreview_frame f st pid).1, (apiFetchPreview_frame f st pid).2.1]
      exact hinv
  · intro rv f now st req hempty hok
    rcases apiAdd_cases rv f now st req with ⟨hne, _⟩ | ⟨_, _, hint, _⟩
    · exact absurd hok hne
    · exact hint
  · intro st key p hsingle
    have hhas : mapHas st.monitoredProducts key = true := by
      rw [hsingle]
      simp [mapHas, mapLookup]
    have hdel : mapDelete st.monitoredProducts key = [] := by
      rw [hsingle]
      simp [mapDelete]
    simp [apiRemove, hhas, hdel]
  · intro st key hinv hhas hne
    have hne0 : st.monitoredProducts ≠ [] := mapHas_ne_nil hhas
    have hint := SchedulerInv_interval hinv hne0
    have hie : (mapDelete st.monitoredProducts key).isEmpty = false := by
      rw [Bool.eq_false_iff]
      intro hc
      exact hne (List.isEmpty_iff.mp hc)
    simp [apiRemove, hhas, hie, hint]

/-- Witness for c5_registry_scheduler at concrete states and operations. -/
theorem c5_witness :
    SchedulerInv (applyOp stC5one (Op.remove "3")) ∧
      (apiRemove stC5one "3").1.monitoringInterval = false :=
  ⟨c5_registry_scheduler.2.1 stC5one (Op.remove "3") (by unfold SchedulerInv; decide),
    c5_registry_scheduler.2.2.2.1 stC5one "3"
      ((mapLookup stC5one.monitoredProducts "3").getD defaultEntry) (by decide)⟩
